import Mathlib

/-!
Verification of the pilote-app core (src/src/App.jsx): the data model,
the derived scoring engine (`calculateMatrix`), the fog classification
(`analyzeSignal`), the log append/clear operations, and the persistent
store adapter (`useLocalStorage`).  JavaScript numbers are modelled as
exact rationals; strings as Lean strings; the wall clock and the storage
backend are passed explicitly as parameters.
-/

namespace PiloteApp

/-- The `RadarState` record: six numeric fields (src/src/App.jsx lines 14-21). -/
structure RadarState where
  inner : ℚ
  peers : ℚ
  family : ℚ
  media : ℚ
  professors : ℚ
  fog : ℚ
deriving DecidableEq

/-- The `GoalState` record: five strings (src/src/App.jsx lines 23-29). -/
structure GoalState where
  title : String
  date : String
  carb_cognitive : String
  carb_physical : String
  carb_recovery : String
deriving DecidableEq

/-- The `LogEntry` record (src/src/App.jsx lines 31-35); `id` comes from
`Date.now()`, modelled as a natural number. -/
structure LogEntry where
  id : ℕ
  date : String
  domain : String
deriving DecidableEq

/-- `externalNoise` from `calculateMatrix` (line 432):
`(radar.peers + radar.media + radar.family + radar.professors) / 4`. -/
def externalNoise (radar : RadarState) : ℚ :=
  (radar.peers + radar.media + radar.family + radar.professors) / 4

/-- `masteryScore` from `calculateMatrix` (lines 433-437):
`((radar.inner * 0.5) + ((100 - radar.fog) * 0.3) + ((100 - externalNoise) * 0.2)) / 10`. -/
def masteryScore (radar : RadarState) : ℚ :=
  ((radar.inner * 0.5) + ((100 - radar.fog) * 0.3) + ((100 - externalNoise radar) * 0.2)) / 10

/-- `carbCount` from `calculateMatrix` (line 439):
`[goal.carb_cognitive, goal.carb_physical, goal.carb_recovery].filter(c => c.length > 2).length`. -/
def carbCount (goal : GoalState) : ℕ :=
  ([goal.carb_cognitive, goal.carb_physical, goal.carb_recovery].filter
    (fun c => decide (c.length > 2))).length

/-- `goalSet` from `calculateMatrix` (line 440): `goal.title.length > 2 ? 1 : 0`. -/
def goalSet (goal : GoalState) : ℕ :=
  if goal.title.length > 2 then 1 else 0

/-- `impactScore` from `calculateMatrix` (lines 441-445):
`((carbCount / 3) * 10 * 0.4) + (goalSet * 10 * 0.2) + (Math.min(logCount, 10) / 10 * 10 * 0.4)`. -/
def impactScore (goal : GoalState) (logCount : ℕ) : ℚ :=
  (((carbCount goal : ℚ) / 3) * 10 * 0.4) +
  ((goalSet goal : ℚ) * 10 * 0.2) +
  (((min logCount 10 : ℕ) : ℚ) / 10 * 10 * 0.4)

/-- `calculateMatrix` (lines 431-448): returns `{ x: masteryScore, y: impactScore }`. -/
def calculateMatrix (radar : RadarState) (goal : GoalState) (logCount : ℕ) : ℚ × ℚ :=
  (masteryScore radar, impactScore goal logCount)

/-- The three qualitative bands returned by `analyzeSignal` (status strings
"OPTIMAL", "INTERMÉDIAIRE", "CRITIQUE"). -/
inductive SignalStatus where
  | OPTIMAL
  | INTERMEDIATE
  | CRITICAL
deriving DecidableEq

/-- `analyzeSignal` from `PageRadar` (lines 124-152), restricted to the status
field: `fog <= 30` gives OPTIMAL, else `fog <= 70` gives INTERMEDIATE, else
CRITICAL. -/
def analyzeSignal (fog : ℚ) : SignalStatus :=
  if fog ≤ 30 then .OPTIMAL
  else if fog ≤ 70 then .INTERMEDIATE
  else .CRITICAL

/-- The authorization condition of `PageMission` (line 495): `x > 7 && y > 7`. -/
def authorization (x y : ℚ) : Bool :=
  decide (x > 7) && decide (y > 7)

/-- `addPlusOneLog` (lines 541-559): builds an entry from the current clock
(`id` and formatted `date` are both functions of `now`, passed here as
parameters) with the `domain` argument stored as given, and appends it at the
end of the list (`prev => [...prev, newEntry]`). -/
def addPlusOneLog (nowId : ℕ) (nowDate : String) (logs : List LogEntry)
    (domain : String) : List LogEntry :=
  logs ++ [{ id := nowId, date := nowDate, domain := domain }]

/-- JavaScript `String.prototype.trim()`: removes whitespace from both ends of
the string, leaving the interior untouched. -/
def jsTrim (s : String) : String :=
  ⟨((s.data.dropWhile Char.isWhitespace).reverse.dropWhile Char.isWhitespace).reverse⟩

/-- `handleAddLog` from `PageCockpit` (lines 318-323): calls `addLog(newLog)`
only when `newLog.trim()` is truthy, i.e. non-empty after trimming; otherwise
nothing happens to the log list. -/
def handleAddLog (nowId : ℕ) (nowDate : String) (logs : List LogEntry)
    (newLog : String) : List LogEntry :=
  if jsTrim newLog ≠ "" then addPlusOneLog nowId nowDate logs newLog else logs

/-- `clearLogs` (lines 561-565): replaces the log list with `[]` when the
`window.confirm` dialog (modelled as the boolean `confirm`) is accepted. -/
def clearLogs (confirm : Bool) (logs : List LogEntry) : List LogEntry :=
  if confirm then [] else logs

/-- The read path of `useLocalStorage` (lines 44-52): `getItem` result is
`stored` (`none` models a `null` return), `parse` models `JSON.parse`
(`none` models a thrown exception, caught by the `try/catch` which returns
`initialValue`).  A stored empty string is falsy in JavaScript, so the
`item ? JSON.parse(item) : initialValue` test returns the default for it. -/
def loadStored {T : Type} (parse : String → Option T) (stored : Option String)
    (initialValue : T) : T :=
  match stored with
  | none => initialValue
  | some item => if item = "" then initialValue else (parse item).getD initialValue

/-! ### Spec-side formulas

Definitions written from the specification's words, to be compared with the
definitions translated from the source above. -/

/-- Spec formula for the mastery score: `externalNoise` is the arithmetic mean
of the four influence fields and
`masteryScore = (inner*0.5 + (100-fog)*0.3 + (100-externalNoise)*0.2) / 10`. -/
def masterySpecFormula (radar : RadarState) : ℚ :=
  (radar.inner * 0.5 + (100 - radar.fog) * 0.3 +
    (100 - (radar.peers + radar.media + radar.family + radar.professors) / 4) * 0.2) / 10

/-- Spec-side `carbCount` as the claim words it: the number of the three carb
fields whose TRIMMED length exceeds 2. -/
def carbCountSpecTrimmed (goal : GoalState) : ℕ :=
  (if (jsTrim goal.carb_cognitive).length > 2 then 1 else 0) +
  (if (jsTrim goal.carb_physical).length > 2 then 1 else 0) +
  (if (jsTrim goal.carb_recovery).length > 2 then 1 else 0)

/-- Spec-side impact score with the trimmed-length carb count, as the claim
words it: `(carbCount/3)*10*0.4 + goalSet*10*0.2 + (min(logCount,10)/10)*10*0.4`. -/
def impactSpecTrimmed (goal : GoalState) (logCount : ℕ) : ℚ :=
  ((carbCountSpecTrimmed goal : ℚ) / 3) * 10 * 0.4 +
  ((if goal.title.length > 2 then (1 : ℚ) else 0) * 10 * 0.2) +
  (((min logCount 10 : ℕ) : ℚ) / 10) * 10 * 0.4

/-- Amended spec-side carb count: the number of the three carb fields whose
(untrimmed) length exceeds 2, matching the source's `c.length > 2` filter. -/
def carbCountSpecUntrimmed (goal : GoalState) : ℕ :=
  (if goal.carb_cognitive.length > 2 then 1 else 0) +
  (if goal.carb_physical.length > 2 then 1 else 0) +
  (if goal.carb_recovery.length > 2 then 1 else 0)

/-- Amended spec-side impact score: same formula with the untrimmed carb
count. -/
def impactSpecUntrimmed (goal : GoalState) (logCount : ℕ) : ℚ :=
  ((carbCountSpecUntrimmed goal : ℚ) / 3) * 10 * 0.4 +
  ((if goal.title.length > 2 then (1 : ℚ) else 0) * 10 * 0.2) +
  (((min logCount 10 : ℕ) : ℚ) / 10) * 10 * 0.4

/-! ### Theorems -/

/-- C1: for every `RadarState` with all six fields in `[0,100]`, the mastery
score equals `(inner*0.5 + (100-fog)*0.3 + (100-externalNoise)*0.2)/10` where
`externalNoise` is the arithmetic mean of `peers`, `media`, `family`,
`professors`; and the input `{inner:100, peers:0, family:0, media:0,
professors:0, fog:0}` yields mastery score exactly `10`. -/
theorem mastery_score_matches_spec (r : RadarState)
    (h : 0 ≤ r.inner ∧ r.inner ≤ 100 ∧ 0 ≤ r.peers ∧ r.peers ≤ 100 ∧
         0 ≤ r.family ∧ r.family ≤ 100 ∧ 0 ≤ r.media ∧ r.media ≤ 100 ∧
         0 ≤ r.professors ∧ r.professors ≤ 100 ∧ 0 ≤ r.fog ∧ r.fog ≤ 100) :
    masteryScore r = masterySpecFormula r ∧ masteryScore ⟨100, 0, 0, 0, 0, 0⟩ = 10 := by
  constructor
  · rfl
  · norm_num [masteryScore, externalNoise]

/-- Witness for C1: the claim's conclusion holds at the app's default radar
state `{inner:30, peers:90, family:50, media:70, professors:60, fog:75}`. -/
theorem mastery_score_matches_spec_witness :
    masteryScore ⟨30, 90, 50, 70, 60, 75⟩ = masterySpecFormula ⟨30, 90, 50, 70, 60, 75⟩ ∧
    masteryScore ⟨100, 0, 0, 0, 0, 0⟩ = 10 :=
  mastery_score_matches_spec ⟨30, 90, 50, 70, 60, 75⟩ (by norm_num)

/-- C2 counterexample: on the goal whose `carb_cognitive` is four spaces
(untrimmed length 4, trimmed length 0) with all other fields empty and
`logCount = 0`, the source's impact score is `4/3` while the claimed formula
with the trimmed-length carb count gives `0`. -/
theorem impact_score_trim_counterexample :
    impactScore ⟨"", "", "    ", "", ""⟩ 0 = 4 / 3 ∧
    impactSpecTrimmed ⟨"", "", "    ", "", ""⟩ 0 = 0 ∧
    impactScore ⟨"", "", "    ", "", ""⟩ 0 ≠ impactSpecTrimmed ⟨"", "", "    ", "", ""⟩ 0 := by
  have h1 : carbCount ⟨"", "", "    ", "", ""⟩ = 1 := by decide
  have h2 : goalSet ⟨"", "", "    ", "", ""⟩ = 0 := by decide
  have h3 : carbCountSpecTrimmed ⟨"", "", "    ", "", ""⟩ = 0 := by decide
  have h4 : min (0 : ℕ) 10 = 0 := by decide
  have hA : impactScore ⟨"", "", "    ", "", ""⟩ 0 = 4 / 3 := by
    rw [impactScore, h1, h2, h4]; norm_num
  have hB : impactSpecTrimmed ⟨"", "", "    ", "", ""⟩ 0 = 0 := by
    rw [impactSpecTrimmed, h3, h4]; norm_num
  refine ⟨hA, hB, ?_⟩
  rw [hA, hB]; norm_num

/-- C2 amended: for every `GoalState` and log count, the impact score equals
`(carbCount/3)*10*0.4 + goalSet*10*0.2 + (min(logCount,10)/10)*10*0.4` where
`carbCount` is the number of the three carb fields whose (untrimmed) length
exceeds 2 and `goalSet` is 1 exactly when the title's length exceeds 2; in
particular all carb fields and the title of length > 2 with `logCount = 10`
give exactly `10`. -/
theorem impact_score_formula_amended (g : GoalState) (logCount : ℕ) :
    impactScore g logCount = impactSpecUntrimmed g logCount ∧
    impactScore ⟨"abcd", "15 Mai", "abcd", "abcd", "abcd"⟩ 10 = 10 := by
  constructor
  · have hc : carbCount g = carbCountSpecUntrimmed g := by
      unfold carbCount carbCountSpecUntrimmed
      by_cases h1 : 2 < g.carb_cognitive.length <;>
        by_cases h2 : 2 < g.carb_physical.length <;>
        by_cases h3 : 2 < g.carb_recovery.length <;>
        simp [List.filter, h1, h2, h3]
    unfold impactScore impactSpecUntrimmed goalSet
    rw [hc]
    split <;> norm_num
  · have h1 : carbCount ⟨"abcd", "15 Mai", "abcd", "abcd", "abcd"⟩ = 3 := by decide
    have h2 : goalSet ⟨"abcd", "15 Mai", "abcd", "abcd", "abcd"⟩ = 1 := by decide
    have h3 : min (10 : ℕ) 10 = 10 := by decide
    rw [impactScore, h1, h2, h3]; norm_num

/-- C3: for every fog value in `[0,100]`, the classification is OPTIMAL exactly
when `fog ≤ 30`, INTERMEDIATE exactly when `30 < fog ≤ 70`, CRITICAL exactly
when `fog > 70` (the bands are mutually exclusive and exhaustive since these
conditions are); and `fog = 30` gives OPTIMAL, `31` and `70` give INTERMEDIATE,
`71` gives CRITICAL. -/
theorem fog_classification (fog : ℚ) (h0 : 0 ≤ fog) (h100 : fog ≤ 100) :
    (analyzeSignal fog = .OPTIMAL ↔ fog ≤ 30) ∧
    (analyzeSignal fog = .INTERMEDIATE ↔ 30 < fog ∧ fog ≤ 70) ∧
    (analyzeSignal fog = .CRITICAL ↔ 70 < fog) ∧
    analyzeSignal 30 = .OPTIMAL ∧ analyzeSignal 31 = .INTERMEDIATE ∧
    analyzeSignal 70 = .INTERMEDIATE ∧ analyzeSignal 71 = .CRITICAL := by
  refine ⟨?_, ?_, ?_, by norm_num [analyzeSignal], by norm_num [analyzeSignal],
    by norm_num [analyzeSignal], by norm_num [analyzeSignal]⟩ <;>
    unfold analyzeSignal <;> split_ifs with hA hB <;> simp_all <;> linarith

/-- Witness for C3 at `fog = 30`. -/
theorem fog_classification_witness :
    ((0 : ℚ) ≤ 30 ∧ (30 : ℚ) ≤ 100) ∧
    ((analyzeSignal 30 = .OPTIMAL ↔ (30 : ℚ) ≤ 30) ∧
     (analyzeSignal 30 = .INTERMEDIATE ↔ (30 : ℚ) < 30 ∧ (30 : ℚ) ≤ 70) ∧
     (analyzeSignal 30 = .CRITICAL ↔ (70 : ℚ) < 30) ∧
     analyzeSignal 30 = .OPTIMAL ∧ analyzeSignal 31 = .INTERMEDIATE ∧
     analyzeSignal 70 = .INTERMEDIATE ∧ analyzeSignal 71 = .CRITICAL) :=
  ⟨⟨by norm_num, by norm_num⟩, fog_classification 30 (by norm_num) (by norm_num)⟩

/-- C4: the authorization signal is true if and only if both scores strictly
exceed 7; `x = y = 10` gives true and `x = 7` exactly gives false. -/
theorem authorization_signal (x y : ℚ) :
    (authorization x y = true ↔ 7 < x ∧ 7 < y) ∧
    authorization 10 10 = true ∧ authorization 7 10 = false := by
  refine ⟨?_, by norm_num [authorization], by norm_num [authorization]⟩
  simp [authorization]

/-- C5: the log-count term of the impact score saturates at 10: for every
`logCount ≥ 10` the impact score equals its value at 10, and in particular
`logCount = 1000` gives the same value as `logCount = 10`. -/
theorem impact_score_saturates (g : GoalState) (logCount : ℕ) (h : 10 ≤ logCount) :
    impactScore g logCount = impactScore g 10 ∧ impactScore g 1000 = impactScore g 10 := by
  have key : ∀ n : ℕ, 10 ≤ n → impactScore g n = impactScore g 10 := by
    intro n hn
    unfold impactScore
    rw [min_eq_right hn, min_eq_right (le_refl 10)]
  exact ⟨key logCount h, key 1000 (by norm_num)⟩

/-- Witness for C5 at the app's default goal state and `logCount = 12`. -/
theorem impact_score_saturates_witness :
    (10 : ℕ) ≤ 12 ∧
    (impactScore ⟨"", "15 Mai", "", "", ""⟩ 12 = impactScore ⟨"", "15 Mai", "", "", ""⟩ 10 ∧
     impactScore ⟨"", "15 Mai", "", "", ""⟩ 1000 = impactScore ⟨"", "15 Mai", "", "", ""⟩ 10) :=
  ⟨by norm_num, impact_score_saturates ⟨"", "15 Mai", "", "", ""⟩ 12 (by norm_num)⟩

/-- C6: appending a log whose text trims to empty is a no-op on the log list;
appending text that is non-empty after trimming appends exactly one entry at
the end whose `domain` is the input string, so the length grows by one. -/
theorem add_log_emptiness (nowId : ℕ) (nowDate : String) (logs : List LogEntry)
    (s : String) :
    (jsTrim s = "" → handleAddLog nowId nowDate logs s = logs) ∧
    (jsTrim s ≠ "" →
      handleAddLog nowId nowDate logs s =
        logs ++ [{ id := nowId, date := nowDate, domain := s }] ∧
      (handleAddLog nowId nowDate logs s).length = logs.length + 1) := by
  constructor
  · intro h
    simp [handleAddLog, h]
  · intro h
    simp [handleAddLog, addPlusOneLog, h]

/-- Witness for C6: `"  "` (whitespace only) is rejected as a no-op, while
`"Ran 5k"` is appended with its text stored as the entry's `domain`. -/
theorem add_log_emptiness_witness :
    (jsTrim "  " = "" ∧ handleAddLog 1 "Lun 1" [] "  " = []) ∧
    (jsTrim "Ran 5k" ≠ "" ∧
      (handleAddLog 1 "Lun 1" [] "Ran 5k" =
        [] ++ [{ id := 1, date := "Lun 1", domain := "Ran 5k" }] ∧
       (handleAddLog 1 "Lun 1" [] "Ran 5k").length = ([] : List LogEntry).length + 1)) :=
  ⟨⟨by decide, (add_log_emptiness 1 "Lun 1" [] "  ").1 (by decide)⟩,
   ⟨by decide, (add_log_emptiness 1 "Lun 1" [] "Ran 5k").2 (by decide)⟩⟩

/-- C7: for every radar state with all six fields in `[0,100]`, every goal
state and every log count, both derived scores lie in `[0,10]`, and the score
pair is a deterministic function of its inputs (it is a pure function of the
triple, so equal inputs give equal outputs). -/
theorem scores_bounded_and_deterministic (r : RadarState) (g : GoalState) (logCount : ℕ)
    (h : 0 ≤ r.inner ∧ r.inner ≤ 100 ∧ 0 ≤ r.peers ∧ r.peers ≤ 100 ∧
         0 ≤ r.family ∧ r.family ≤ 100 ∧ 0 ≤ r.media ∧ r.media ≤ 100 ∧
         0 ≤ r.professors ∧ r.professors ≤ 100 ∧ 0 ≤ r.fog ∧ r.fog ≤ 100) :
    (0 ≤ (calculateMatrix r g logCount).1 ∧ (calculateMatrix r g logCount).1 ≤ 10) ∧
    (0 ≤ (calculateMatrix r g logCount).2 ∧ (calculateMatrix r g logCount).2 ≤ 10) ∧
    calculateMatrix r g logCount = calculateMatrix r g logCount := by
  obtain ⟨h1, h2, h3, h4, h5, h6, h7, h8, h9, h10, h11, h12⟩ := h
  refine ⟨⟨?_, ?_⟩, ⟨?_, ?_⟩, rfl⟩
  · show 0 ≤ masteryScore r
    unfold masteryScore externalNoise
    norm_num
    nlinarith
  · show masteryScore r ≤ 10
    unfold masteryScore externalNoise
    norm_num
    nlinarith
  · show 0 ≤ impactScore g logCount
    unfold impactScore
    have hc : (0 : ℚ) ≤ (carbCount g : ℚ) := Nat.cast_nonneg _
    have hg : (0 : ℚ) ≤ (goalSet g : ℚ) := Nat.cast_nonneg _
    have hm : (0 : ℚ) ≤ min (logCount : ℚ) 10 := le_min (Nat.cast_nonneg _) (by norm_num)
    push_cast
    linarith
  · show impactScore g logCount ≤ 10
    unfold impactScore
    have hc : (carbCount g : ℚ) ≤ 3 := by
      have := List.length_filter_le (fun c => decide (2 < c.length))
        [g.carb_cognitive, g.carb_physical, g.carb_recovery]
      exact_mod_cast this
    have hg : (goalSet g : ℚ) ≤ 1 := by
      unfold goalSet; split <;> norm_num
    have hm : min (logCount : ℚ) 10 ≤ 10 := min_le_right _ _
    push_cast
    linarith

/-- Witness for C7 at the app's default radar and goal states, `logCount = 0`. -/
theorem scores_bounded_and_deterministic_witness :
    (0 ≤ (calculateMatrix ⟨30, 90, 50, 70, 60, 75⟩ ⟨"", "15 Mai", "", "", ""⟩ 0).1 ∧
     (calculateMatrix ⟨30, 90, 50, 70, 60, 75⟩ ⟨"", "15 Mai", "", "", ""⟩ 0).1 ≤ 10) ∧
    (0 ≤ (calculateMatrix ⟨30, 90, 50, 70, 60, 75⟩ ⟨"", "15 Mai", "", "", ""⟩ 0).2 ∧
     (calculateMatrix ⟨30, 90, 50, 70, 60, 75⟩ ⟨"", "15 Mai", "", "", ""⟩ 0).2 ≤ 10) ∧
    calculateMatrix ⟨30, 90, 50, 70, 60, 75⟩ ⟨"", "15 Mai", "", "", ""⟩ 0 =
      calculateMatrix ⟨30, 90, 50, 70, 60, 75⟩ ⟨"", "15 Mai", "", "", ""⟩ 0 :=
  scores_bounded_and_deterministic ⟨30, 90, 50, 70, 60, 75⟩ ⟨"", "15 Mai", "", "", ""⟩ 0
    (by norm_num)

/-- C8: the store adapter's read path returns the parsed stored value when one
is present and parseable, and returns the supplied default on a missing key or
a parse failure; it is a total function, so no error reaches the caller.
(`parse "" = none` states that the empty string is unparseable, as it is for
`JSON.parse`.) -/
theorem load_stored_contract {T : Type} (parse : String → Option T)
    (stored : Option String) (dflt : T) :
    (stored = none → loadStored parse stored dflt = dflt) ∧
    (∀ s, stored = some s → parse s = none → loadStored parse stored dflt = dflt) ∧
    (∀ s v, stored = some s → parse "" = none → parse s = some v →
      loadStored parse stored dflt = v) := by
  refine ⟨?_, ?_, ?_⟩
  · intro h; simp [loadStored, h]
  · intro s hs hp
    subst hs
    by_cases he : s = "" <;> simp [loadStored, he, hp]
  · intro s v hs hempty hp
    subst hs
    have he : s ≠ "" := by
      intro h; rw [h, hempty] at hp; exact Option.noConfusion hp
    simp [loadStored, he, hp]

/-- Witness for C8 with a concrete parser: a missing key, an unparseable value
and a parseable value. -/
theorem load_stored_contract_witness :
    loadStored (fun s => if s = "5" then some 5 else none) none 0 = 0 ∧
    loadStored (fun s => if s = "5" then some 5 else none) (some "oops") 0 = 0 ∧
    loadStored (fun s => if s = "5" then some 5 else none) (some "5") 0 = 5 :=
  ⟨(load_stored_contract (fun s => if s = "5" then some 5 else none) none 0).1 rfl,
   (load_stored_contract (fun s => if s = "5" then some 5 else none) (some "oops") 0).2.1
     "oops" rfl (by decide),
   (load_stored_contract (fun s => if s = "5" then some 5 else none) (some "5") 0).2.2
     "5" 5 rfl (by decide) (by decide)⟩

/-- C9: the confirmed clear operation empties any log list: a non-empty list
becomes empty, and an already-empty list stays empty. -/
theorem clear_logs_empties (logs : List LogEntry) :
    clearLogs true logs = [] ∧ clearLogs true ([] : List LogEntry) = [] :=
  ⟨rfl, rfl⟩

/-- C10: for text that is non-empty after trimming, the append stores the input
string verbatim (whitespace included) as the new entry's `domain`, places the
new entry at the end, and leaves every previously stored entry unchanged at its
position. -/
theorem add_log_frame (nowId : ℕ) (nowDate : String) (logs : List LogEntry)
    (s : String) (h : jsTrim s ≠ "") :
    handleAddLog nowId nowDate logs s =
      logs ++ [{ id := nowId, date := nowDate, domain := s }] ∧
    (∀ k, k < logs.length → (handleAddLog nowId nowDate logs s)[k]? = logs[k]?) ∧
    (handleAddLog nowId nowDate logs s)[logs.length]? =
      some { id := nowId, date := nowDate, domain := s } := by
  have heq : handleAddLog nowId nowDate logs s =
      logs ++ [{ id := nowId, date := nowDate, domain := s }] := by
    simp [handleAddLog, addPlusOneLog, h]
  refine ⟨heq, ?_, ?_⟩
  · intro k hk
    rw [heq, List.getElem?_append_left hk]
  · rw [heq, List.getElem?_concat_length]

/-- Witness for C10: appending `" Ran 5k "` (with surrounding whitespace) to a
one-entry log keeps the old entry at index 0 and stores the text verbatim at
index 1. -/
theorem add_log_frame_witness :
    jsTrim " Ran 5k " ≠ "" ∧
    handleAddLog 7 "Lun 1" [⟨3, "Dim 5", "old"⟩] " Ran 5k " =
      [⟨3, "Dim 5", "old"⟩] ++ [{ id := 7, date := "Lun 1", domain := " Ran 5k " }] ∧
    (handleAddLog 7 "Lun 1" [⟨3, "Dim 5", "old"⟩] " Ran 5k ")[0]? =
      [(⟨3, "Dim 5", "old"⟩ : LogEntry)][0]? ∧
    (handleAddLog 7 "Lun 1" [⟨3, "Dim 5", "old"⟩] " Ran 5k ")[1]? =
      some { id := 7, date := "Lun 1", domain := " Ran 5k " } := by
  have h := add_log_frame 7 "Lun 1" [⟨3, "Dim 5", "old"⟩] " Ran 5k " (by decide)
  exact ⟨by decide, h.1, h.2.1 0 (by decide), h.2.2⟩

end PiloteApp
